import Mathlib

set_option maxRecDepth 8000

/-! Shallow embedding of the qTest orchestration layer (qtest_api.py,
qtest_manager.py, qtest_robot_library.py): result reporting, name
resolution, container creation and step-log composition, with theorems
about the behaviour of each operation.  Remote HTTP calls are modelled as
oracles passed in as arguments; Python exceptions become an explicit
error type; Python dictionaries whose key sets are fixed by the code
become structures. -/

/-- ASCII single-quote character, used when rendering Python-style quoted
strings without writing a quote character in the source. -/
def squote : String := String.singleton (Char.ofNat 39)

/-- Python repr of a list of strings, as produced by
f-string interpolation of a list of keys in an error message. -/
def pyReprStrList (l : List String) : String :=
  "[" ++ String.intercalate ", " (l.map (fun s => squote ++ s ++ squote)) ++ "]"

/-- ASCII uppercase of one character (Python str.upper on ASCII data). -/
def pyCharUpper (c : Char) : Char :=
  if 97 ≤ c.toNat && c.toNat ≤ 122 then Char.ofNat (c.toNat - 32) else c

/-- ASCII lowercase of one character (Python str.lower on ASCII data). -/
def pyCharLower (c : Char) : Char :=
  if 65 ≤ c.toNat && c.toNat ≤ 90 then Char.ofNat (c.toNat + 32) else c

/-- Python str.upper (ASCII model). -/
def pyUpper (s : String) : String := ⟨s.data.map pyCharUpper⟩

/-- Python str.lower (ASCII model). -/
def pyLower (s : String) : String := ⟨s.data.map pyCharLower⟩

/-- Whitespace characters stripped by Python str.strip. -/
def isPySpace (c : Char) : Bool :=
  c = ' ' || c.toNat = 9 || c.toNat = 10 || c.toNat = 11 || c.toNat = 12 ||
    c.toNat = 13

/-- Python str.strip: drop whitespace from both ends. -/
def pyStrip (s : String) : String :=
  ⟨((s.data.dropWhile isPySpace).reverse.dropWhile isPySpace).reverse⟩

/-- A dynamically typed Python scalar as stored in a step record fetched
from the platform: an integer or a string. -/
inductive PyVal where
  | vint : Int → PyVal
  | vstr : String → PyVal
deriving DecidableEq, Repr

/-- Python truthiness of a scalar: zero and the empty string are falsy. -/
def pyTruthy : PyVal → Bool
  | .vint n => n != 0
  | .vstr s => s != ""

/-- Python `a or b` over possibly-absent scalars: the first operand is
returned when it is present and truthy, otherwise the second operand. -/
def pyOr (a b : Option PyVal) : Option PyVal :=
  match a with
  | some v => if pyTruthy v then some v else b
  | none => b

/-- Accumulate a decimal digit string; any non-digit character fails. -/
def decDigitsAux : List Char → Nat → Option Nat
  | [], acc => some acc
  | c :: cs, acc =>
    if c.isDigit then decDigitsAux cs (acc * 10 + (c.toNat - 48)) else none

/-- Parse a non-empty all-digit character list to a natural number. -/
def decDigits (cs : List Char) : Option Nat :=
  match cs with
  | [] => none
  | _ => decDigitsAux cs 0

/-- Python `int(s)` on a string: surrounding whitespace is stripped, an
optional sign is accepted, then decimal digits; anything else raises
(modelled as `none`). -/
def pyParseInt (s : String) : Option Int :=
  match (pyStrip s).data with
  | [] => none
  | c :: rest =>
    if c = '-' then (decDigits rest).map (fun n => -(n : Int))
    else if c = '+' then (decDigits rest).map (fun n => (n : Int))
    else (decDigits (c :: rest)).map (fun n => (n : Int))

/-- Python `int(v)` on a scalar: integers pass through, strings are
parsed; failure is `none`. -/
def pyIntOf : PyVal → Option Int
  | .vint n => some n
  | .vstr s => pyParseInt s

/-- Python `str(v)` on a scalar. -/
def pyStrOf : PyVal → String
  | .vint n => toString n
  | .vstr s => s

/-- Boolean success test for an `Except` value. -/
def exceptIsOk {ε α : Type} : Except ε α → Bool
  | .ok _ => true
  | .error _ => false

/-! ## Status registry (qtest_manager.py, get_execution_statuses) -/

/-- One execution status as returned by `GET test-runs/execution-statuses`. -/
structure ExecStatus where
  id : Int
  name : String
deriving DecidableEq, Repr

/-- The manager's status mapping: an insertion-ordered dictionary from
uppercased status name to numeric id. -/
abbrev StatusMap := List (String × Int)

/-- Insertion into a Python dict: an existing key keeps its position and
gets the new value, a new key is appended at the end. -/
def dictInsert (m : StatusMap) (k : String) (v : Int) : StatusMap :=
  if m.any (fun p => p.1 == k) then
    m.map (fun p => if p.1 == k then (k, v) else p)
  else m ++ [(k, v)]

/-- The dict comprehension of get_execution_statuses: keys are the
uppercased status names, values the status ids. -/
def buildStatusMap (statuses : List ExecStatus) : StatusMap :=
  statuses.foldl (fun m s => dictInsert m (pyUpper s.name) s.id) []

/-- Dictionary membership lookup (`status_upper in statuses` /
`statuses[status_upper]`). -/
def dictFind (m : StatusMap) (k : String) : Option Int :=
  (m.find? (fun p => p.1 == k)).map Prod.snd

/-- One call to get_execution_statuses on a manager whose cache field
`_execution_statuses` holds `cache`.  `fetched` is what the platform
would return if queried.  Result: the returned mapping, the new cache
field, and whether a network call was issued. -/
def get_execution_statuses (cache : Option StatusMap) (fetched : List ExecStatus) :
    StatusMap × Option StatusMap × Bool :=
  match cache with
  | some m => (m, some m, false)
  | none =>
    let m := buildStatusMap fetched
    (m, some m, true)

/-- A sequence of get_execution_statuses calls on one manager instance;
each call has its own view `fᵢ` of what a fetch would return.  Result:
per-call (mapping, network-call-issued) pairs and the final cache. -/
def runStatusCalls : List (List ExecStatus) → Option StatusMap →
    List (StatusMap × Bool) × Option StatusMap
  | [], cache => ([], cache)
  | f :: fs, cache =>
    let r := get_execution_statuses cache f
    let rest := runStatusCalls fs r.2.1
    ((r.1, r.2.2) :: rest.1, rest.2)

/-! ## Result reporting (qtest_manager.py, update_test_result and
bulk_update_test_results) -/

/-- Python exceptions that the reporting code can raise or catch. -/
inductive PyErr where
  | valueError : String → PyErr
  | typeError : String → PyErr
  | keyError : String → PyErr
  | transport : Nat → PyErr
deriving DecidableEq, Repr

/-- Python `str(e)` on an exception (KeyError renders its key quoted). -/
def strOfPyErr : PyErr → String
  | .valueError m => m
  | .typeError m => m
  | .keyError k => squote ++ k ++ squote
  | .transport code => "API request failed: " ++ toString code

/-- The `status` object placed in a test-log payload. -/
structure StatusRef where
  id : Int
  name : String
deriving DecidableEq, Repr

/-- Step-log entries are copied verbatim into the payload by
update_test_result without being inspected; they are modelled opaquely. -/
abbrev StepLogEntry := Nat

/-- The add-test-log request body built by update_test_result
(`test_log_data`).  Optional dict keys are `Option`; the `defects` key is
only ever set to a non-empty list, so `[]` stands for an absent key. -/
structure TestLogData where
  status : StatusRef
  test_case_version_id : Int
  note : Option String
  exe_time : Option Int
  defects : List Int
  exe_start_date : Option String
  exe_end_date : Option String
  test_step_logs : List StepLogEntry
deriving DecidableEq, Repr

/-- The platform's response to a successful add-test-log call. -/
structure TestLog where
  id : Int
deriving DecidableEq, Repr

/-- A value bound to the `steplogs` parameter: a dict that may or may not
hold a `logs` entry (`steplogs['logs']` raises KeyError when absent). -/
structure StepLogsArg where
  logs : Option (List StepLogEntry)
deriving DecidableEq, Repr

/-- Observable outcome of one update_test_result call: the returned value
or raised exception, and the add-test-log payloads actually submitted. -/
structure UpdateOutcome where
  result : Except PyErr TestLog
  submitted : List TestLogData
deriving Repr

/-- CPython's message for the missing required `steplogs` argument. -/
def missingSteplogsMsg : String :=
  "update_test_result() missing 1 required positional argument: " ++
    squote ++ "steplogs" ++ squote

/-- The ValueError message of update_test_result for an unknown status,
listing the registry's keys. -/
def invalidStatusMsg (status : String) (sm : StatusMap) : String :=
  "Invalid status: " ++ status ++ ". Available statuses: " ++
    pyReprStrList (sm.map Prod.fst)

/-- Python `if x:` guard on an optional string: empty strings are
dropped like absent values. -/
def pyTruthyStr : Option String → Option String
  | some s => if s = "" then none else some s
  | none => none

/-- Python `if x:` guard on an optional integer: zero is dropped. -/
def pyTruthyInt : Option Int → Option Int
  | some n => if n = 0 then none else some n
  | none => none

/-- Python `if x:` guard on an optional list: empty lists are dropped. -/
def pyTruthyList : Option (List Int) → Option (List Int)
  | some l => if l = [] then none else some l
  | none => none

/-- Model of qtest_manager.QTestManager.update_test_result.  `sm` is the
cached status mapping, `api` the add-test-log transport oracle, and
`steplogs` is `none` when the caller did not supply the required
positional argument at all (Python raises TypeError at the call). -/
def update_test_result (sm : StatusMap)
    (api : Int → TestLogData → Except PyErr TestLog)
    (test_run_id test_case_id : Int) (status : String)
    (steplogs : Option StepLogsArg) (test_case_version_id : Option Int)
    (note : Option String) (execution_time : Option Int)
    (defects : Option (List Int)) (exe_start_date exe_end_date : Option String) :
    UpdateOutcome :=
  match steplogs with
  | none => { result := .error (.typeError missingSteplogsMsg), submitted := [] }
  | some sl =>
    let status_upper := pyUpper status
    match dictFind sm status_upper with
    | none =>
      { result := .error (.valueError (invalidStatusMsg status sm)), submitted := [] }
    | some status_id =>
      match sl.logs with
      | none => { result := .error (.keyError "logs"), submitted := [] }
      | some logs =>
        let payload : TestLogData :=
          { status := { id := status_id, name := status_upper }
            test_case_version_id := test_case_version_id.getD test_case_id
            note := pyTruthyStr note
            exe_time := pyTruthyInt execution_time
            defects := (pyTruthyList defects).getD []
            exe_start_date := pyTruthyStr exe_start_date
            exe_end_date := pyTruthyStr exe_end_date
            test_step_logs := logs }
        match api test_run_id payload with
        | .ok log => { result := .ok log, submitted := [payload] }
        | .error e => { result := .error e, submitted := [payload] }

/-- One element of the test_results argument of bulk_update_test_results,
with the keys documented by the code (`test_case_id`, `status` required;
`note`, `execution_time`, `defects` read with .get). -/
structure TestResultItem where
  test_case_id : Int
  status : String
  note : Option String
  execution_time : Option Int
  defects : Option (List Int)
deriving DecidableEq, Repr

/-- One entry of the list returned by bulk_update_test_results: either
the platform's TestLog or the substitute error record (a dict carrying
an `error` message and the item's `test_case_id`). -/
inductive BulkEntry where
  | log : TestLog → BulkEntry
  | err : String → Int → BulkEntry
deriving DecidableEq, Repr

/-- The per-item body of the bulk loop: bulk_update_test_results calls
update_test_result with keyword arguments only — the required `steplogs`
parameter is never passed (hence `none` below), and
`test_case_version_id` and the exe dates are not passed either.  Any
exception is caught and turned into the substitute record. -/
def bulk_entry (sm : StatusMap) (api : Int → TestLogData → Except PyErr TestLog)
    (test_run_id : Int) (it : TestResultItem) : BulkEntry :=
  match (update_test_result sm api test_run_id it.test_case_id it.status
      none none it.note it.execution_time it.defects none none).result with
  | .ok l => .log l
  | .error e => .err (strOfPyErr e) it.test_case_id

/-- Model of qtest_manager.QTestManager.bulk_update_test_results. -/
def bulk_update_test_results (sm : StatusMap)
    (api : Int → TestLogData → Except PyErr TestLog) (test_run_id : Int)
    (test_results : List TestResultItem) : List BulkEntry :=
  test_results.map (bulk_entry sm api test_run_id)

/-! ## Name-based resolvers (qtest_api.py, find_test_case_id_by_name and
find_test_cycle_id_by_name) -/

/-- A network/HTTP-level failure raised by the transport. -/
structure TransportErr where
  code : Nat
deriving DecidableEq, Repr

/-- A test-case record as listed by the platform; `name`/`pid` are read
with .get and str(), `id` and `test_case_version_id` may be absent. -/
structure CaseRec where
  name : String
  pid : String
  id : Option Int
  test_case_version_id : Option Int
deriving DecidableEq, Repr

/-- Python `a or b` over optional integers (zero is falsy). -/
def pyOrInt (a b : Option Int) : Option Int :=
  match a with
  | some n => if n != 0 then some n else b
  | none => b

/-- The match test of find_test_case_id_by_name: trimmed case-insensitive
equality against the name, or against a non-empty pid. -/
def matchesCase (c : CaseRec) (name : String) : Bool :=
  pyLower (pyStrip c.name) == pyLower (pyStrip name) ||
    (pyLower (pyStrip c.pid) != "" && pyLower (pyStrip c.pid) == pyLower (pyStrip name))

/-- The search loop of find_test_case_id_by_name: the first matching case
ends the loop and yields `c.get('id') or c.get('test_case_version_id')`
(which can itself be absent). -/
def scan_cases : List CaseRec → String → Option Int
  | [], _ => none
  | c :: rest, name =>
    if matchesCase c name then pyOrInt c.id c.test_case_version_id
    else scan_cases rest name

/-- Model of qtest_api.QTestAPI.find_test_case_id_by_name.  `fetch` is
the outcome of `self.list_test_cases()`.  The whole body is wrapped in
try/except Exception, which logs and returns None — so a transport
failure is mapped to `.ok none`, never re-raised. -/
def find_test_case_id_by_name (fetch : Except TransportErr (List CaseRec))
    (name : String) : Except PyErr (Option Int) :=
  match fetch with
  | .error _ => .ok none
  | .ok cases => .ok (scan_cases cases name)

/-- A test-cycle record as listed by the platform.  Platform cycle
records always carry their assigned id. -/
structure CycleRec where
  name : String
  pid : String
  id : Int
deriving DecidableEq, Repr

/-- The match test of find_test_cycle_id_by_name, identical in shape to
the test-case one. -/
def matchesCycle (cy : CycleRec) (name : String) : Bool :=
  pyLower (pyStrip cy.name) == pyLower (pyStrip name) ||
    (pyLower (pyStrip cy.pid) != "" && pyLower (pyStrip cy.pid) == pyLower (pyStrip name))

/-- The search loop of find_test_cycle_id_by_name. -/
def scan_cycles : List CycleRec → String → Option Int
  | [], _ => none
  | cy :: rest, name =>
    if matchesCycle cy name then some cy.id else scan_cycles rest name

/-- Model of qtest_api.QTestAPI.find_test_cycle_id_by_name.  `fetch` is
the outcome of `self.get_test_cycles()`; a None body becomes `[]` via
`or []`.  The try/except wrapper maps any failure to `.ok none`. -/
def find_test_cycle_id_by_name
    (fetch : Except TransportErr (Option (List CycleRec))) (name : String) :
    Except PyErr (Option Int) :=
  match fetch with
  | .error _ => .ok none
  | .ok ocys => .ok (scan_cycles (ocys.getD []) name)

/-! ## Get-or-create for cycles (qtest_manager.py,
get_or_create_test_cycle_id_by_name) -/

/-- The remote cycle store: the listed cycles plus the id the platform
will assign to the next created cycle. -/
structure CycleWorld where
  cycles : List CycleRec
  nextId : Int
deriving Repr

/-- Creation of a cycle (qtest_manager.create_test_cycle → POST
test-cycles): the platform stores a cycle with the requested name and a
fresh id, and returns that id.  The description affects no lookup and is
not modelled. -/
def create_test_cycle (w : CycleWorld) (name : String) : Int × CycleWorld :=
  (w.nextId, { cycles := w.cycles ++ [{ name := name, pid := "", id := w.nextId }],
               nextId := w.nextId + 1 })

/-- Model of qtest_manager.QTestManager.get_or_create_test_cycle_id_by_name
over a healthy transport: resolve by name first; if found return that id,
otherwise create and return `created.get('id')`. -/
def get_or_create_test_cycle_id_by_name (w : CycleWorld) (name : String) :
    Option Int × CycleWorld :=
  match scan_cycles w.cycles name with
  | some cid => (some cid, w)
  | none =>
    let c := create_test_cycle w name
    (some c.1, c.2)

/-! ## Step-id resolution (qtest_api.py, find_test_step_id_by_order) -/

/-- A test-step record: the four candidate order keys are read with .get
(absent → `none`), plus the step id. -/
structure StepRec where
  order : Option PyVal
  index : Option PyVal
  sequence : Option PyVal
  position : Option PyVal
  id : Option Int
deriving DecidableEq, Repr

/-- The candidate order of a step, per the source line
`s.get('order') or s.get('index') or s.get('sequence') or s.get('position')`:
a Python or-chain, which passes over falsy values, not merely absent ones. -/
def effOrder (s : StepRec) : Option PyVal :=
  pyOr (pyOr (pyOr s.order s.index) s.sequence) s.position

/-- The comparison of find_test_step_id_by_order: `int(order) ==
int(step_number)`, falling back to stripped string equality when either
coercion raises. -/
def ordMatches (v n : PyVal) : Bool :=
  match pyIntOf v, pyIntOf n with
  | some a, some b => a == b
  | _, _ => pyStrip (pyStrOf v) == pyStrip (pyStrOf n)

/-- Model of qtest_api.QTestAPI.find_test_step_id_by_order over the
fetched step list: steps whose or-chain yields None are skipped; the
first comparison hit returns that step's `s.get('id')`. -/
def find_test_step_id_by_order : List StepRec → PyVal → Option Int
  | [], _ => none
  | s :: rest, n =>
    match effOrder s with
    | none => find_test_step_id_by_order rest n
    | some v =>
      if ordMatches v n then s.id else find_test_step_id_by_order rest n

/-- Modelled from the claim's words, for comparison with the source
function: the candidate order is the first of order/index/sequence/
position that is PRESENT on the step (regardless of truthiness), compared
like the source compares. -/
def specFirstPresent (s : StepRec) : Option PyVal :=
  s.order <|> s.index <|> s.sequence <|> s.position

/-- Modelled from the claim's words: resolveStepId matching on the first
present field in priority order. -/
def specResolveStepId : List StepRec → PyVal → Option Int
  | [], _ => none
  | s :: rest, n =>
    match specFirstPresent s with
    | none => specResolveStepId rest n
    | some v => if ordMatches v n then s.id else specResolveStepId rest n

/-- The loop test actually implemented by find_test_step_id_by_order,
used to state its characterisation. -/
def codeStepMatch (n : PyVal) (s : StepRec) : Bool :=
  match effOrder s with
  | none => false
  | some v => ordMatches v n

/-! ## Step-log container append (qtest_robot_library.py,
append_qtest_test_step_log) -/

/-- The shape of the `logs` entry inside a dict container: absent, a
list, or some non-list value. -/
inductive LogsField (α : Type) where
  | absent : LogsField α
  | notList : LogsField α
  | list : List α → LogsField α
deriving DecidableEq, Repr

/-- The runtime shapes a `container` argument can take: Python None, a
string, a list, a dict (classified by its `logs` entry), or any other
object. -/
inductive SLContainer (α : Type) where
  | pynone : SLContainer α
  | pystr : String → SLContainer α
  | pylist : List α → SLContainer α
  | pydict : LogsField α → SLContainer α
  | pyother : SLContainer α
deriving DecidableEq, Repr

/-- The final ValueError message of append_qtest_test_step_log. -/
def containerErrMsg : String :=
  "Container must be a list, a dict (with " ++ squote ++ "logs" ++ squote ++
    "), or empty/None to start a new list"

/-- The ValueError message for a dict whose logs entry is not a list. -/
def logsErrMsg : String :=
  "Expected " ++ squote ++ "logs" ++ squote ++ " key in dict to be a list"

/-- Model of qtest_robot_library.append_qtest_test_step_log, abstracted
over the step payload type: None or the empty string start a fresh
one-element list; a list is appended to; a dict gets the step appended
into its `logs` list, which is created when absent; a dict with a
non-list `logs` and every other shape raise ValueError. -/
def append_qtest_test_step_log {α : Type} (container : SLContainer α) (step : α) :
    Except String (SLContainer α) :=
  match container with
  | .pynone => .ok (.pylist [step])
  | .pystr s => if s = "" then .ok (.pylist [step]) else .error containerErrMsg
  | .pylist l => .ok (.pylist (l ++ [step]))
  | .pydict .absent => .ok (.pydict (.list [step]))
  | .pydict .notList => .error logsErrMsg
  | .pydict (.list l) => .ok (.pydict (.list (l ++ [step])))
  | .pyother => .error containerErrMsg

/-! ## Test-run payload construction (qtest_manager.py, create_test_run,
payload-building part, lines 109-142) -/

/-- A field_id in a properties entry: the code uses string ids for the
planned dates and an integer id for the Build Version custom field. -/
inductive PropFieldId where
  | pstr : String → PropFieldId
  | pint : Int → PropFieldId
deriving DecidableEq, Repr

/-- One entry of the `properties` array of a test-run payload. -/
structure RunProperty where
  field_id : PropFieldId
  field_value : String
  field_name : Option String
  field_value_name : Option String
deriving DecidableEq, Repr

/-- The hardcoded Build Version property attached when build_version is
not supplied. -/
def buildVersionProp : RunProperty :=
  { field_id := .pint 12625659, field_value := "[3643503]",
    field_name := some "Build Version", field_value_name := some "[New Value]" }

/-- The properties contribution of one planned date: attached only when
the supplied value is truthy (`if planned_start_date:`). -/
def dateProps (fid : String) (v : Option String) : List RunProperty :=
  match v with
  | some s =>
    if s = "" then []
    else [{ field_id := .pstr fid, field_value := s,
            field_name := none, field_value_name := none }]
  | none => []

/-- The test_run_data dict built by create_test_run.  A `properties` key
is only ever created by appending an entry, so `[]` stands for an absent
key. -/
structure TestRunData where
  name : String
  test_case : Option (Int × Option Int)
  test_case_ids : Option (List Int)
  description : Option String
  properties : List RunProperty
deriving DecidableEq, Repr

/-- Model of the payload-construction part of
qtest_manager.QTestManager.create_test_run: dates go into properties when
truthy, the Build Version property is appended exactly when
`build_version == None`. -/
def create_test_run_payload (name : String) (test_case_ids : Option (List Int))
    (test_case_id test_case_version_id : Option Int) (description : Option String)
    (planned_start_date planned_end_date build_version : Option String) :
    TestRunData :=
  { name := name
    test_case := test_case_id.map (fun i => (i, test_case_version_id))
    test_case_ids := test_case_ids
    description := pyTruthyStr description
    properties :=
      dateProps "PlannedStartDate" planned_start_date ++
      dateProps "PlannedEndDate" planned_end_date ++
      (if build_version = none then [buildVersionProp] else []) }

/-- The non-properties (top-level) fields of a test-run payload. -/
def payloadTop (p : TestRunData) :
    String × Option (Int × Option Int) × Option (List Int) × Option String :=
  (p.name, p.test_case, p.test_case_ids, p.description)

/-! ## Shared concrete fixtures -/

/-- Status registry of the spec's scenario: Passed → 1, Failed → 2. -/
def sm0 : StatusMap := [("PASSED", 1), ("FAILED", 2)]

/-- A transport oracle whose add-test-log call always succeeds with test
log 777. -/
def apiOk : Int → TestLogData → Except PyErr TestLog :=
  fun _ _ => .ok { id := 777 }

/-- A bulk item with a status name present in the registry. -/
def item10 : TestResultItem :=
  { test_case_id := 10, status := "PASSED", note := none,
    execution_time := none, defects := none }

/-! ## Claims C1 and C2: bulk result reporting -/

/-- C1: the claim says a bulk item whose status name is present in the
registry yields the TestLog returned by updateResult (no error key).  The
code cannot do that: bulk_update_test_results never passes the required
`steplogs` argument to update_test_result, so every item — valid status
or not — raises TypeError inside the loop and is recorded as the
substitute error record.  This theorem evaluates the code at a one-item
batch whose status PASSED is in the registry: the registry lookup
succeeds, yet the returned array holds an error entry, not a TestLog. -/
theorem C1_bulk_drops_valid_items :
    dictFind sm0 "PASSED" = some 1 ∧
    bulk_update_test_results sm0 apiOk 100 [item10] =
      [BulkEntry.err missingSteplogsMsg 10] := by
  decide

/-- C2: bulk_update_test_results always returns normally with one entry
per input item, index-aligned: entry i is the per-item outcome of item i,
and an item whose update_test_result call raises contributes the
substitute record built from the exception message and that item's
test_case_id at its own position. -/
theorem C2_bulk_total_and_aligned (sm : StatusMap)
    (api : Int → TestLogData → Except PyErr TestLog) (rid : Int)
    (items : List TestResultItem) :
    (bulk_update_test_results sm api rid items).length = items.length ∧
    (∀ (i : Nat) (it : TestResultItem), items[i]? = some it →
      (bulk_update_test_results sm api rid items)[i]? =
        some (bulk_entry sm api rid it)) ∧
    (∀ it e,
      (update_test_result sm api rid it.test_case_id it.status
          none none it.note it.execution_time it.defects none none).result =
        .error e →
      bulk_entry sm api rid it = .err (strOfPyErr e) it.test_case_id) := by
  refine ⟨by simp [bulk_update_test_results], ?_, ?_⟩
  · intro i it h
    show (items.map (bulk_entry sm api rid))[i]? = some (bulk_entry sm api rid it)
    rw [List.getElem?_map (bulk_entry sm api rid) items i, h]
    rfl
  · intro it e h
    simp [bulk_entry, h]

/-- C2 witness: the general theorem applied to a concrete one-item batch
that fails (the missing-steplogs TypeError), checking length, alignment
and the substitute record. -/
theorem C2_bulk_total_and_aligned_witness :
    (bulk_update_test_results sm0 apiOk 100 [item10]).length = 1 ∧
    (bulk_update_test_results sm0 apiOk 100 [item10])[0]? =
      some (bulk_entry sm0 apiOk 100 item10) ∧
    bulk_entry sm0 apiOk 100 item10 =
      .err (strOfPyErr (.typeError missingSteplogsMsg)) item10.test_case_id := by
  refine ⟨(C2_bulk_total_and_aligned sm0 apiOk 100 [item10]).1, ?_, ?_⟩
  · exact (C2_bulk_total_and_aligned sm0 apiOk 100 [item10]).2.1 0 item10 rfl
  · exact (C2_bulk_total_and_aligned sm0 apiOk 100 [item10]).2.2 item10
      (.typeError missingSteplogsMsg) rfl

/-! ## Claim C3: status validation in update_test_result -/

/-- C3: update_test_result resolves the status case-insensitively against
the registry; an absent name raises ValueError whose message lists the
valid names, before any add-test-log submission; a present name leads to
a submitted payload whose status object is the mapped id together with
the uppercased name. -/
theorem C3_update_result_status_check (sm : StatusMap)
    (api : Int → TestLogData → Except PyErr TestLog) (rid cid : Int)
    (status : String) (sl : StepLogsArg) (vers : Option Int)
    (note : Option String) (et : Option Int) (df : Option (List Int))
    (sd ed : Option String) :
    (dictFind sm (pyUpper status) = none →
      (update_test_result sm api rid cid status (some sl) vers note et df sd ed).result
          = .error (.valueError (invalidStatusMsg status sm)) ∧
      (update_test_result sm api rid cid status (some sl) vers note et df sd ed).submitted
          = []) ∧
    (∀ sid logs, dictFind sm (pyUpper status) = some sid → sl.logs = some logs →
      (update_test_result sm api rid cid status (some sl) vers note et df sd ed).submitted.map
          (fun p => p.status) = [{ id := sid, name := pyUpper status }]) := by
  constructor
  · intro h
    simp [update_test_result, h]
  · intro sid logs h hl
    simp only [update_test_result, h, hl]
    cases api rid
        { status := { id := sid, name := pyUpper status }
          test_case_version_id := vers.getD cid
          note := pyTruthyStr note
          exe_time := pyTruthyInt et
          defects := (pyTruthyList df).getD []
          exe_start_date := pyTruthyStr sd
          exe_end_date := pyTruthyStr ed
          test_step_logs := logs } <;> simp

/-- C3 witness: the spec scenario.  With registry PASSED → 1, FAILED → 2,
status "blocked" raises the ValueError listing the names and submits
nothing, and status "passed" submits a payload with status id 1 and name
PASSED. -/
theorem C3_update_result_status_check_witness :
    ((update_test_result sm0 apiOk 100 10 "blocked" (some { logs := some [] })
        none none none none none none).result
      = .error (.valueError (invalidStatusMsg "blocked" sm0)) ∧
     (update_test_result sm0 apiOk 100 10 "blocked" (some { logs := some [] })
        none none none none none none).submitted = []) ∧
    (update_test_result sm0 apiOk 100 10 "passed" (some { logs := some [] })
        none none none none none none).submitted.map (fun p => p.status)
      = [{ id := 1, name := pyUpper "passed" }] := by
  constructor
  · exact (C3_update_result_status_check sm0 apiOk 100 10 "blocked"
      { logs := some [] } none none none none none none).1 (by decide)
  · exact (C3_update_result_status_check sm0 apiOk 100 10 "passed"
      { logs := some [] } none none none none none none).2 1 [] (by decide) rfl

/-! ## Claim C4: transport-error propagation in resolvers -/

/-- C4 counterexample: with a failing transport, find_test_case_id_by_name
and find_test_cycle_id_by_name return normally with None instead of
surfacing the failure — the try/except Exception wrapper in both
resolvers swallows transport errors, so the claim that such failures are
surfaced to the immediate caller is false at this input. -/
theorem C4_resolvers_swallow_transport_cex :
    find_test_case_id_by_name (.error { code := 500 }) "Login Test" = .ok none ∧
    find_test_cycle_id_by_name (.error { code := 500 }) "Sprint 1" = .ok none ∧
    exceptIsOk (find_test_case_id_by_name (.error { code := 500 }) "Login Test")
      = true ∧
    exceptIsOk (find_test_cycle_id_by_name (.error { code := 500 }) "Sprint 1")
      = true := by
  exact ⟨rfl, rfl, rfl, rfl⟩

/-- C4 amended: transport failures inside the two name resolvers are
caught, logged and reported as None — indistinguishable from not-found —
while a resolver that finds no match likewise returns None rather than
raising; and outside the resolvers a transport failure during the
add-test-log submission of update_test_result propagates to the immediate
caller unchanged. -/
theorem C4_amended_transport_handling :
    (∀ (e : TransportErr) (name : String),
      find_test_case_id_by_name (.error e) name = .ok none ∧
      find_test_cycle_id_by_name (.error e) name = .ok none) ∧
    (∀ (fetch : Except TransportErr (List CaseRec)) (name : String),
      exceptIsOk (find_test_case_id_by_name fetch name) = true) ∧
    (∀ (fetch : Except TransportErr (Option (List CycleRec))) (name : String),
      exceptIsOk (find_test_cycle_id_by_name fetch name) = true) ∧
    (∀ (cases : List CaseRec) (name : String),
      find_test_case_id_by_name (.ok cases) name = .ok (scan_cases cases name)) ∧
    (∀ (sm : StatusMap) (rid cid : Int) (status : String)
        (logs : List StepLogEntry) (vers : Option Int) (note : Option String)
        (et : Option Int) (df : Option (List Int)) (sd ed : Option String)
        (te : PyErr) (sid : Int),
      dictFind sm (pyUpper status) = some sid →
      (update_test_result sm (fun _ _ => .error te) rid cid status
          (some { logs := some logs }) vers note et df sd ed).result =
        .error te) := by
  refine ⟨fun e name => ⟨rfl, rfl⟩, fun fetch name => ?_, fun fetch name => ?_,
    fun cases name => rfl, ?_⟩
  · cases fetch <;> rfl
  · cases fetch <;> rfl
  · intro sm rid cid status logs vers note et df sd ed te sid h
    simp [update_test_result, h]

/-- C4 witness: the propagation conjunct applied at a concrete failing
transport and the registry of the scenario. -/
theorem C4_amended_transport_handling_witness :
    (update_test_result sm0 (fun _ _ => .error (.transport 500)) 100 10 "passed"
        (some { logs := some [] }) none none none none none none).result =
      .error (.transport 500) := by
  exact C4_amended_transport_handling.2.2.2.2 sm0 100 10 "passed" [] none none
    none none none none (.transport 500) 1 (by decide)

/-! ## Claim C5: step resolution by order -/

/-- A step whose `order` key holds 0: falsy in Python, so the or-chain of
the source passes over it. -/
def step0 : StepRec :=
  { order := some (.vint 0), index := none, sequence := none,
    position := none, id := some 7 }

/-- C5 counterexample: a step with the `order` field present and equal to
the requested order 0 is not matched by the code — `s.get('order') or
s.get('index') or ...` skips falsy values, so the chain yields None and
the step is skipped — whereas the claim's first-present-field reading
resolves it to id 7. -/
theorem C5_step_order_zero_cex :
    find_test_step_id_by_order [step0] (.vint 0) = none ∧
    specResolveStepId [step0] (.vint 0) = some 7 := by
  decide

/-- C5 amended: the candidate order of a step is the Python or-chain over
order/index/sequence/position — the first truthy value in that priority,
else the last one; zero, empty and absent values are passed over, and a
step whose chain yields None is skipped entirely.  find_test_step_id_by_order
returns the id of the first step whose candidate equals the requested
order numerically, falling back to stripped string equality when numeric
coercion fails on either side, and None when no step matches. -/
theorem C5_amended_step_resolution (steps : List StepRec) (n : PyVal) :
    find_test_step_id_by_order steps n =
      (steps.find? (codeStepMatch n)).bind StepRec.id ∧
    ((∀ s ∈ steps, codeStepMatch n s = false) →
      find_test_step_id_by_order steps n = none) := by
  constructor
  · induction steps with
    | nil => rfl
    | cons s rest ih =>
      show (match effOrder s with
        | none => find_test_step_id_by_order rest n
        | some v =>
          if ordMatches v n then s.id else find_test_step_id_by_order rest n) = _
      rcases h : effOrder s with _ | v
      · have hm : codeStepMatch n s = false := by simp [codeStepMatch, h]
        simp [List.find?, hm, ih]
      · rcases hm : ordMatches v n with _ | _
        · have hms : codeStepMatch n s = false := by simp [codeStepMatch, h, hm]
          simp [List.find?, hms, hm, ih]
        · have hms : codeStepMatch n s = true := by simp [codeStepMatch, h, hm]
          simp [List.find?, hms, hm]
  · intro hall
    induction steps with
    | nil => rfl
    | cons s rest ih =>
      have hs : codeStepMatch n s = false := hall s (by simp)
      have hrest : ∀ x ∈ rest, codeStepMatch n x = false := by
        intro x hx
        exact hall x (by simp [hx])
      show (match effOrder s with
        | none => find_test_step_id_by_order rest n
        | some v =>
          if ordMatches v n then s.id else find_test_step_id_by_order rest n) = _
      rcases h : effOrder s with _ | v
      · exact ih hrest
      · have hm : ordMatches v n = false := by
          have := hs
          simp [codeStepMatch, h] at this
          exact this
        simp [hm]
        exact ih hrest

/-- C5 witness: the no-match conjunct applied to a step list whose only
step has no order-like field at all. -/
theorem C5_amended_step_resolution_witness :
    find_test_step_id_by_order
      [{ order := none, index := none, sequence := none, position := none,
         id := some 7 }] (.vint 1) = none := by
  exact (C5_amended_step_resolution
    [{ order := none, index := none, sequence := none, position := none,
       id := some 7 }] (.vint 1)).2 (by decide)

/-! ## Claim C6: get-or-create idempotence for cycles -/

/-- Scanning a concatenation whose first part has no match continues into
the second part. -/
lemma scan_cycles_append_of_none (l l2 : List CycleRec) (name : String)
    (h : scan_cycles l name = none) :
    scan_cycles (l ++ l2) name = scan_cycles l2 name := by
  induction l with
  | nil => rfl
  | cons c rest ih =>
    by_cases hm : matchesCycle c name
    · simp [scan_cycles, hm] at h
    · simp [scan_cycles, hm] at h ⊢
      exact ih h

/-- A cycle record whose stored name is the looked-up name matches it. -/
lemma matchesCycle_self (name pid : String) (i : Int) :
    matchesCycle { name := name, pid := pid, id := i } name = true := by
  simp [matchesCycle]

/-- C6: get_or_create_test_cycle_id_by_name called twice with the same
name and no intervening external creation returns the same id both times;
a resolvable name returns the found id without touching the store, and an
unresolvable one creates exactly one cycle with that name and returns its
newly assigned id. -/
theorem C6_get_or_create_idempotent (w : CycleWorld) (name : String) :
    (get_or_create_test_cycle_id_by_name
        (get_or_create_test_cycle_id_by_name w name).2 name).1 =
      (get_or_create_test_cycle_id_by_name w name).1 ∧
    (∀ cid, scan_cycles w.cycles name = some cid →
      get_or_create_test_cycle_id_by_name w name = (some cid, w)) ∧
    (scan_cycles w.cycles name = none →
      (get_or_create_test_cycle_id_by_name w name).1 = some w.nextId ∧
      (get_or_create_test_cycle_id_by_name w name).2.cycles =
        w.cycles ++ [{ name := name, pid := "", id := w.nextId }]) := by
  refine ⟨?_, ?_, ?_⟩
  · rcases h : scan_cycles w.cycles name with _ | cid
    · have hs : scan_cycles
          (w.cycles ++ [{ name := name, pid := "", id := w.nextId }]) name =
          some w.nextId := by
        rw [scan_cycles_append_of_none _ _ _ h]
        simp [scan_cycles, matchesCycle_self]
      simp [get_or_create_test_cycle_id_by_name, create_test_cycle, h, hs]
    · simp [get_or_create_test_cycle_id_by_name, h]
  · intro cid h
    simp [get_or_create_test_cycle_id_by_name, h]
  · intro h
    simp [get_or_create_test_cycle_id_by_name, create_test_cycle, h]

/-- C6 witness: on a store holding cycle "Regression" with id 5, a
case-and-whitespace variant of the name resolves to 5 without creating,
and an unknown name gets the next fresh id 100 and is appended once. -/
theorem C6_get_or_create_idempotent_witness :
    get_or_create_test_cycle_id_by_name
        { cycles := [{ name := "Regression", pid := "CL-1", id := 5 }],
          nextId := 100 } "  regression " =
      (some 5, { cycles := [{ name := "Regression", pid := "CL-1", id := 5 }],
                 nextId := 100 }) ∧
    (get_or_create_test_cycle_id_by_name
        { cycles := [{ name := "Regression", pid := "CL-1", id := 5 }],
          nextId := 100 } "Sprint 9").1 = some 100 ∧
    (get_or_create_test_cycle_id_by_name
        { cycles := [{ name := "Regression", pid := "CL-1", id := 5 }],
          nextId := 100 } "Sprint 9").2.cycles =
      [{ name := "Regression", pid := "CL-1", id := 5 },
       { name := "Sprint 9", pid := "", id := 100 }] := by
  refine ⟨?_, ?_, ?_⟩
  · exact (C6_get_or_create_idempotent
      { cycles := [{ name := "Regression", pid := "CL-1", id := 5 }],
        nextId := 100 } "  regression ").2.1 5 (by decide)
  · exact ((C6_get_or_create_idempotent
      { cycles := [{ name := "Regression", pid := "CL-1", id := 5 }],
        nextId := 100 } "Sprint 9").2.2 (by decide)).1
  · exact ((C6_get_or_create_idempotent
      { cycles := [{ name := "Regression", pid := "CL-1", id := 5 }],
        nextId := 100 } "Sprint 9").2.2 (by decide)).2

/-! ## Claim C7: step-log container append -/

/-- C7 counterexample: an empty dict — a container that neither is a list
nor holds a `logs` list nor is None/empty-string — is not rejected as a
caller error and does not become the fresh one-element list either: the
code silently creates the `logs` entry and returns the dict. -/
theorem C7_dict_without_logs_cex :
    append_qtest_test_step_log (SLContainer.pydict LogsField.absent) (0 : Nat) =
      .ok (.pydict (.list [0])) ∧
    SLContainer.pydict (LogsField.list [0]) ≠ (SLContainer.pylist [0] : SLContainer Nat) ∧
    exceptIsOk (append_qtest_test_step_log
      (SLContainer.pydict LogsField.absent) (0 : Nat)) = true := by
  refine ⟨rfl, by decide, rfl⟩

/-- C7 amended: None and the empty string start a fresh one-element list;
a list gets the step appended at the end and is returned; a dict holding
a `logs` list gets the step appended into it; a dict without a `logs`
entry has one created holding just the step; a dict whose `logs` is not a
list and every other container shape raise ValueError.  In every accepted
case the previously appended entries are preserved unchanged and in
order, with the new step last. -/
theorem C7_amended_append {α : Type} (step : α) (l : List α) (s : String) :
    append_qtest_test_step_log (SLContainer.pynone : SLContainer α) step =
      .ok (.pylist [step]) ∧
    append_qtest_test_step_log (SLContainer.pystr s : SLContainer α) step =
      (if s = "" then .ok (.pylist [step]) else .error containerErrMsg) ∧
    append_qtest_test_step_log (SLContainer.pylist l) step =
      .ok (.pylist (l ++ [step])) ∧
    append_qtest_test_step_log (SLContainer.pydict (LogsField.list l)) step =
      .ok (.pydict (.list (l ++ [step]))) ∧
    append_qtest_test_step_log (SLContainer.pydict (LogsField.absent : LogsField α)) step =
      .ok (.pydict (.list [step])) ∧
    append_qtest_test_step_log (SLContainer.pydict (LogsField.notList : LogsField α)) step =
      .error logsErrMsg ∧
    append_qtest_test_step_log (SLContainer.pyother : SLContainer α) step =
      .error containerErrMsg :=
  ⟨rfl, rfl, rfl, rfl, rfl, rfl, rfl⟩

/-! ## Claims C8 and C10: test-run payload construction -/

/-- Every entry contributed by dateProps carries the string field id it
was built for. -/
lemma dateProps_field_id (fid : String) (vv : Option String) (q : RunProperty)
    (h : q ∈ dateProps fid vv) : q.field_id = .pstr fid := by
  rcases vv with _ | s
  · simp [dateProps] at h
  · by_cases hs : s = ""
    · simp [dateProps, hs] at h
    · simp [dateProps, hs] at h
      rw [h]

/-- C8: a supplied truthy planned start/end date reaches the payload as a
properties entry with field_id PlannedStartDate/PlannedEndDate; the
top-level payload fields are independent of the dates (they are never
top-level run fields); and with build_version not supplied the hardcoded
Build Version property (field_id 12625659, field_value [3643503]) is
always attached. -/
theorem C8_create_run_date_and_build_props (n : String) (tcids : Option (List Int))
    (tcid tcvid : Option Int) (d psd ped bv : Option String) :
    (∀ s : String, psd = some s → s ≠ "" →
      ({ field_id := .pstr "PlannedStartDate", field_value := s,
         field_name := none, field_value_name := none } : RunProperty) ∈
        (create_test_run_payload n tcids tcid tcvid d psd ped bv).properties) ∧
    (∀ s : String, ped = some s → s ≠ "" →
      ({ field_id := .pstr "PlannedEndDate", field_value := s,
         field_name := none, field_value_name := none } : RunProperty) ∈
        (create_test_run_payload n tcids tcid tcvid d psd ped bv).properties) ∧
    payloadTop (create_test_run_payload n tcids tcid tcvid d psd ped bv) =
      payloadTop (create_test_run_payload n tcids tcid tcvid d none none bv) ∧
    buildVersionProp ∈
      (create_test_run_payload n tcids tcid tcvid d psd ped none).properties := by
  refine ⟨?_, ?_, rfl, ?_⟩
  · intro s hs hne
    subst hs
    simp [create_test_run_payload, dateProps, hne]
  · intro s hs hne
    subst hs
    simp [create_test_run_payload, dateProps, hne]
  · simp [create_test_run_payload]

/-- C8 witness: concrete dates and an absent build version — both date
properties and the hardcoded Build Version property are in the payload. -/
theorem C8_create_run_date_and_build_props_witness :
    ({ field_id := .pstr "PlannedStartDate", field_value := "2024-01-01",
       field_name := none, field_value_name := none } : RunProperty) ∈
      (create_test_run_payload "Run A" none none none none (some "2024-01-01")
        (some "2024-01-02") none).properties ∧
    ({ field_id := .pstr "PlannedEndDate", field_value := "2024-01-02",
       field_name := none, field_value_name := none } : RunProperty) ∈
      (create_test_run_payload "Run A" none none none none (some "2024-01-01")
        (some "2024-01-02") none).properties ∧
    buildVersionProp ∈
      (create_test_run_payload "Run A" none none none none (some "2024-01-01")
        (some "2024-01-02") none).properties := by
  have h := C8_create_run_date_and_build_props "Run A" none none none none
    (some "2024-01-01") (some "2024-01-02") none
  exact ⟨h.1 "2024-01-01" rfl (by decide), h.2.1 "2024-01-02" rfl (by decide),
    h.2.2.2⟩

/-- C10: with build_version supplied, no Build Version property (field_id
12625659) is in the payload; the payload does not depend on the supplied
value at all; the only difference from the unsupplied case is the absence
of the hardcoded Build Version property; and the top-level fields are
unaffected. -/
theorem C10_build_version_frame (n : String) (tcids : Option (List Int))
    (tcid tcvid : Option Int) (d psd ped : Option String) (v : String) :
    (∀ q ∈ (create_test_run_payload n tcids tcid tcvid d psd ped (some v)).properties,
      q.field_id ≠ PropFieldId.pint 12625659) ∧
    create_test_run_payload n tcids tcid tcvid d psd ped (some v) =
      create_test_run_payload n tcids tcid tcvid d psd ped (some "") ∧
    (create_test_run_payload n tcids tcid tcvid d psd ped none).properties =
      (create_test_run_payload n tcids tcid tcvid d psd ped (some v)).properties ++
        [buildVersionProp] ∧
    payloadTop (create_test_run_payload n tcids tcid tcvid d psd ped (some v)) =
      payloadTop (create_test_run_payload n tcids tcid tcvid d psd ped none) := by
  refine ⟨?_, rfl, ?_, rfl⟩
  · intro q hq
    have hq2 : q ∈ dateProps "PlannedStartDate" psd ++ dateProps "PlannedEndDate" ped := by
      simpa [create_test_run_payload] using hq
    rcases List.mem_append.mp hq2 with h1 | h1
    · simp [dateProps_field_id _ _ _ h1]
    · simp [dateProps_field_id _ _ _ h1]
  · simp [create_test_run_payload, List.append_assoc]

/-- C10 witness: the no-Build-Version-property conjunct applied to the
concrete payload of a run with a supplied build version and a planned
start date. -/
theorem C10_build_version_frame_witness :
    ({ field_id := .pstr "PlannedStartDate", field_value := "2024-01-01",
       field_name := none, field_value_name := none } : RunProperty).field_id ≠
      PropFieldId.pint 12625659 := by
  exact (C10_build_version_frame "Run A" none none none none
    (some "2024-01-01") none "9.9").1 _ (by decide)

/-! ## Claim C9: status registry populated at most once -/

/-- Once the cache holds a mapping, every further call returns it and
issues no fetch. -/
lemma runStatusCalls_cached (fs : List (List ExecStatus)) (m : StatusMap) :
    runStatusCalls fs (some m) = (fs.map (fun _ => (m, false)), some m) := by
  induction fs with
  | nil => rfl
  | cons f rest ih => simp [runStatusCalls, get_execution_statuses, ih]

/-- Keys present after a dict insertion were present before or are the
inserted key. -/
lemma dictInsert_key_mem (m : StatusMap) (k : String) (v : Int) :
    ∀ p ∈ dictInsert m k v, p.1 ∈ m.map Prod.fst ∨ p.1 = k := by
  intro p hp
  by_cases hc : m.any (fun q => q.1 == k)
  · rw [dictInsert, if_pos hc] at hp
    rcases List.mem_map.mp hp with ⟨q, hq, hqe⟩
    by_cases h2 : q.1 == k
    · right
      rw [← hqe]
      simp [h2]
    · left
      rw [← hqe]
      have hif : (if q.1 == k then (k, v) else q) = q := by simp [h2]
      rw [hif]
      exact List.mem_map_of_mem Prod.fst hq
  · rw [dictInsert, if_neg hc] at hp
    rcases List.mem_append.mp hp with h1 | h1
    · exact Or.inl (List.mem_map_of_mem Prod.fst h1)
    · right
      rw [List.mem_singleton.mp h1]

/-- Every key of the folded status dictionary comes from the accumulator
or is an uppercased status name of the list. -/
lemma buildStatusMap_keys_aux (l : List ExecStatus) :
    ∀ (acc : StatusMap) (p : String × Int),
      p ∈ l.foldl (fun m s => dictInsert m (pyUpper s.name) s.id) acc →
      p.1 ∈ acc.map Prod.fst ∨ ∃ s ∈ l, p.1 = pyUpper s.name := by
  induction l with
  | nil =>
    intro acc p hp
    exact Or.inl (List.mem_map_of_mem Prod.fst hp)
  | cons s rest ih =>
    intro acc p hp
    rcases ih (dictInsert acc (pyUpper s.name) s.id) p hp with h1 | h1
    · rcases List.mem_map.mp h1 with ⟨q, hq, hqe⟩
      rcases dictInsert_key_mem acc (pyUpper s.name) s.id q hq with h2 | h2
      · exact Or.inl (hqe ▸ h2)
      · exact Or.inr ⟨s, by simp, by rw [← hqe, h2]⟩
    · rcases h1 with ⟨t, ht, hte⟩
      exact Or.inr ⟨t, by simp [ht], hte⟩

/-- C9: on a fresh manager, the first get_execution_statuses call fetches
once and returns the mapping built by uppercasing the fetched status
names; every subsequent call returns that identical mapping with no
network call — whatever a new fetch would have returned — so exactly one
fetch happens over any call sequence; and every key of the mapping is the
uppercased name of some fetched status. -/
theorem C9_status_registry_cached (f : List ExecStatus) (fs : List (List ExecStatus)) :
    (runStatusCalls (f :: fs) none).1 =
      (buildStatusMap f, true) :: fs.map (fun _ => (buildStatusMap f, false)) ∧
    ((runStatusCalls (f :: fs) none).1.countP (fun r => r.2)) = 1 ∧
    (∀ k, k ∈ (buildStatusMap f).map Prod.fst → ∃ s ∈ f, k = pyUpper s.name) := by
  have h1 : (runStatusCalls (f :: fs) none).1 =
      (buildStatusMap f, true) :: fs.map (fun _ => (buildStatusMap f, false)) := by
    simp [runStatusCalls, get_execution_statuses, runStatusCalls_cached]
  have h0 : ∀ (L : List (List ExecStatus)),
      (L.map (fun _ => (buildStatusMap f, false))).countP (fun r => r.2) = 0 := by
    intro L
    induction L with
    | nil => rfl
    | cons a t ih => simp [List.countP_cons, ih]
  refine ⟨h1, ?_, ?_⟩
  · rw [h1, List.countP_cons, h0]
    simp
  · intro k hk
    rcases List.mem_map.mp hk with ⟨p, hp, hpe⟩
    rcases buildStatusMap_keys_aux f [] p hp with h2 | h2
    · simp at h2
    · rcases h2 with ⟨s, hs, he⟩
      exact ⟨s, hs, by rw [← hpe, he]⟩

/-- C9 witness: the key-origin conjunct at the scenario's fetched list —
the key PASSED of the built mapping is the uppercasing of a fetched
status name. -/
theorem C9_status_registry_cached_witness :
    ∃ s ∈ [({ id := 1, name := "Passed" } : ExecStatus)],
      "PASSED" = pyUpper s.name := by
  exact (C9_status_registry_cached [{ id := 1, name := "Passed" }] []).2.2
    "PASSED" (by decide)
